import Mathlib

/-
Verification of the Windows process backend (src/src/windows/process.c) against
its design specification. Machine handles are modelled as natural numbers with
0 standing for NULL; the thread local last platform error register is threaded
explicitly; behavior of OS calls that can succeed or fail is supplied through
explicit oracle records, so every definition is executable.
-/

/-- Portable process error kinds (spec section 7). `PROCESS_UNKNOWN` keeps the
raw platform error value as diagnostic payload. -/
inductive PROCESS_ERROR where
  | PROCESS_SUCCESS
  | PROCESS_WAIT_TIMEOUT
  | PROCESS_PIPE_CREATION_FAILED
  | PROCESS_CREATION_FAILED
  | PROCESS_INVALID_HANDLE
  | PROCESS_IO_FAILED
  | PROCESS_UNKNOWN (raw : Nat)
deriving DecidableEq

/-- Modelled from the spec: `system_error_to_process_error` is declared in
util.h and defined outside the given source file, so it is modelled from
section 7 of the spec. The absence of a platform error (code 0, set by
SetLastError(0) before each OS call) maps to Success; every other platform
error maps to an error kind, and the raw platform error value is preserved as
a diagnostic payload so distinct platform errors stay distinguishable. We model
all nonzero codes through the payload preserving Unknown kind, which keeps the
translation injective exactly as the diagnostics clause of section 7 requires. -/
def system_error_to_process_error (code : Nat) : PROCESS_ERROR :=
  if code = 0 then PROCESS_ERROR.PROCESS_SUCCESS
  else PROCESS_ERROR.PROCESS_UNKNOWN code

/-- An outcome is an error unless it is Success or the distinguished
WaitTimeout outcome, which section 7 of the spec singles out as not a fault. -/
def isError : PROCESS_ERROR → Bool
  | PROCESS_ERROR.PROCESS_SUCCESS => false
  | PROCESS_ERROR.PROCESS_WAIT_TIMEOUT => false
  | _ => true

/-- Mirror of the Windows PROCESS_INFORMATION record stored in the process
struct (lines 15, 33-36 of the source): process handle, main thread handle and
process id, each 0 when unset. -/
structure PROCESS_INFORMATION where
  hProcess : Nat
  hThread : Nat
  dwProcessId : Nat
deriving DecidableEq

/-- The process struct of lines 8-16: three parent side pipe endpoints, three
child side pipe endpoints and the process information record. A handle value
of 0 is NULL. -/
structure process where
  stdin : Nat
  stdout : Nat
  stderr : Nat
  child_stdin : Nat
  child_stdout : Nat
  child_stderr : Nat
  info : PROCESS_INFORMATION
deriving DecidableEq

/-- Observable events emitted by the operations: closing a handle, the process
creation call, a C runtime free call, sending a console control event to a
process group, and waiting on a handle for a number of milliseconds. -/
inductive Event where
  | evClose (h : Nat)
  | evCreateProcess
  | evFree
  | evCtrlBreak (target : Nat)
  | evWait (h : Nat) (ms : Nat)
deriving DecidableEq

/-- Ambient machine state: the thread local last platform error register and a
fresh handle allocator (successive OS handle creations yield distinct values). -/
structure World where
  lastError : Nat
  nextHandle : Nat
deriving DecidableEq

/-- Outcome choice for one pipe_init call: whether it succeeds, and the
platform error it reports when it fails. -/
structure PipeOracle where
  ok : Bool
  errCode : Nat
deriving DecidableEq

/-- Modelled from the spec: `pipe_init` (the Duplex Pipe factory of spec
section 4.1) is defined outside the given source file. It creates one pipe and
hands back two fresh ends, the read end through its first out parameter and the
write end through its second; on failure it reports a platform error and leaves
the out parameters unwritten. The third out parameter at every call site in
process_init (lines 40-42) aliases the parent retained end that the call has
already written through one of the first two parameters (stdin is the write
end the parent keeps, stdout and stderr are the read ends the parent keeps),
matching the spec clause that the parent end is additionally singled out to be
made non inheritable; the rewrite through it therefore leaves the field value
unchanged and is dropped from the model. Fresh handles come from the allocator,
so distinct creations give distinct nonzero values. -/
def pipe_init (w : World) (o : PipeOracle) : Option (Nat × Nat) × World :=
  if o.ok then
    (some (w.nextHandle, w.nextHandle + 1), World.mk w.lastError (w.nextHandle + 2))
  else
    (none, World.mk o.errCode w.nextHandle)

/-- Outcome choices for the three pipe_init calls made by process_init. -/
structure InitOracle where
  p1 : PipeOracle
  p2 : PipeOracle
  p3 : PipeOracle
deriving DecidableEq

/-- Result of process_init: the written process record, the final machine
state, and the returned error. -/
structure InitResult where
  p : process
  w : World
  err : PROCESS_ERROR
deriving DecidableEq

/-- process_init (lines 22-47): zero every handle field and the process
information record, clear the last platform error with SetLastError(0), run the
three pipe_init calls of lines 40-42 chained by the short circuiting logical
conjunction, and return the translation of the last platform error (line 44). -/
def process_init (o : InitOracle) (w0 : World) : InitResult :=
  let p : process := process.mk 0 0 0 0 0 0 (PROCESS_INFORMATION.mk 0 0 0)
  let w : World := World.mk 0 w0.nextHandle
  match pipe_init w o.p1 with
  | (none, w1) => InitResult.mk p w1 (system_error_to_process_error w1.lastError)
  | (some r1, w1) =>
    let p := { p with child_stdin := r1.1, stdin := r1.2 }
    match pipe_init w1 o.p2 with
    | (none, w2) => InitResult.mk p w2 (system_error_to_process_error w2.lastError)
    | (some r2, w2) =>
      let p := { p with stdout := r2.1, child_stdout := r2.2 }
      match pipe_init w2 o.p3 with
      | (none, w3) => InitResult.mk p w3 (system_error_to_process_error w3.lastError)
      | (some r3, w3) =>
        let p := { p with stderr := r3.1, child_stderr := r3.2 }
        InitResult.mk p w3 (system_error_to_process_error w3.lastError)

/-- Effect of one OS or C runtime call on the last error register: `none`
leaves the register unchanged, `some e` overwrites it with e. -/
def applyLastError (le : Nat) (effect : Option Nat) : Nat := effect.getD le

/-- Outcome choices for one process_start run: whether CreateProcessW
succeeds, the platform error it sets when it fails, the process information it
fills in on success, the effect of the two free calls of lines 93-94 on the
last error register, and the effects of the four CloseHandle calls of lines
98-101. -/
structure StartOracle where
  createOk : Bool
  createErr : Nat
  hProcess : Nat
  hThread : Nat
  pid : Nat
  free1 : Option Nat
  free2 : Option Nat
  close1 : Option Nat
  close2 : Option Nat
  close3 : Option Nat
  close4 : Option Nat
deriving DecidableEq

/-- Result of process_start: the updated process record, the final last error
register, the returned error and the event trace. -/
structure StartResult where
  p : process
  lastError : Nat
  err : PROCESS_ERROR
  trace : List Event
deriving DecidableEq

/-- process_start (lines 49-109) with the debug assertions of lines 51-71
erased, as they are in a build with NDEBUG; the claims reinstate them as
hypotheses where they matter. Steps in source order: SetLastError(0) (line 88);
CreateProcessW (line 90), which on success fills the info record and on failure
sets a platform error; the two free calls on the command line strings (lines
93-94), C runtime calls whose implementations may touch the last error
register (spec section 5 names this hazard); translation of the last platform
error (line 96); CloseHandle on the three child endpoints and on the thread
handle (lines 98-101); and the priority merge of lines 104-106 that keeps the
first error when there was one and otherwise reports the close error. -/
def process_start (p0 : process) (o : StartOracle) : StartResult :=
  let le : Nat := 0
  let info := if o.createOk then PROCESS_INFORMATION.mk o.hProcess o.hThread o.pid
    else p0.info
  let le := if o.createOk then le else o.createErr
  let p := { p0 with info := info }
  let le := applyLastError le o.free1
  let le := applyLastError le o.free2
  let error := system_error_to_process_error le
  let le := applyLastError le o.close1
  let le := applyLastError le o.close2
  let le := applyLastError le o.close3
  let le := applyLastError le o.close4
  let trace := [Event.evCreateProcess, Event.evFree, Event.evFree,
    Event.evClose p.child_stdin, Event.evClose p.child_stdout,
    Event.evClose p.child_stderr, Event.evClose p.info.hThread]
  let error := if error = PROCESS_ERROR.PROCESS_SUCCESS
    then system_error_to_process_error le else error
  StartResult.mk p le error trace

/-- Precondition assertions of process_start on the handle fields (lines
58-67): all six endpoints present and the handle not already started. The
assertions of lines 53-55 and 69-71 concern the argument vector and are
outside the handle model. -/
def process_start_asserts (p : process) : Prop :=
  p.stdin ≠ 0 ∧ p.stdout ≠ 0 ∧ p.stderr ≠ 0 ∧
  p.child_stdin ≠ 0 ∧ p.child_stdout ≠ 0 ∧ p.child_stderr ≠ 0 ∧
  p.info.hThread = 0 ∧ p.info.hProcess = 0

/-- Outcome choices for the four conditional CloseHandle calls of
process_free (lines 199-202). -/
structure FreeOracle where
  c1 : Option Nat
  c2 : Option Nat
  c3 : Option Nat
  c4 : Option Nat
deriving DecidableEq

/-- Result of process_free: the process record as left behind, the returned
error and the event trace. -/
structure FreeResult where
  p : process
  err : PROCESS_ERROR
  trace : List Event
deriving DecidableEq

/-- process_free (lines 190-207): SetLastError(0), then CloseHandle on stdin,
stdout, stderr and info.hProcess, each guarded by a nonzero check (lines
199-202), then translation of the last platform error (line 204). The source
never writes to any field of the struct, so the record is returned unchanged. -/
def process_free (p : process) (o : FreeOracle) : FreeResult :=
  let le : Nat := 0
  let le := if p.stdin ≠ 0 then applyLastError le o.c1 else le
  let t1 : List Event := if p.stdin ≠ 0 then [Event.evClose p.stdin] else []
  let le := if p.stdout ≠ 0 then applyLastError le o.c2 else le
  let t2 : List Event := if p.stdout ≠ 0 then [Event.evClose p.stdout] else []
  let le := if p.stderr ≠ 0 then applyLastError le o.c3 else le
  let t3 : List Event := if p.stderr ≠ 0 then [Event.evClose p.stderr] else []
  let le := if p.info.hProcess ≠ 0 then applyLastError le o.c4 else le
  let t4 : List Event := if p.info.hProcess ≠ 0 then [Event.evClose p.info.hProcess] else []
  FreeResult.mk p (system_error_to_process_error le) (t1 ++ t2 ++ t3 ++ t4)

/-- Windows constant: WaitForSingleObject result for a signaled object. -/
def WAIT_OBJECT_0 : Nat := 0

/-- Windows constant: WaitForSingleObject result for an abandoned mutex. -/
def WAIT_ABANDONED : Nat := 128

/-- Windows constant: WaitForSingleObject result when the timeout elapsed. -/
def WAIT_TIMEOUT : Nat := 258

/-- Windows constant: WaitForSingleObject result when the call failed. -/
def WAIT_FAILED : Nat := 4294967295

/-- Raw outcome of one WaitForSingleObject call: the returned result code, the
platform error it sets when the result is WAIT_FAILED, and the number of
milliseconds the call blocked. -/
structure WaitOracle where
  code : Nat
  errCode : Nat
  elapsed : Nat
deriving DecidableEq

/-- Result of process_wait and process_terminate: the returned error and the
event trace. -/
structure WaitResult where
  err : PROCESS_ERROR
  trace : List Event
deriving DecidableEq

/-- process_wait (lines 141-158): SetLastError(0), WaitForSingleObject on the
process handle with the given timeout, then the switch of lines 150-155:
WAIT_TIMEOUT returns the distinguished PROCESS_WAIT_TIMEOUT outcome,
WAIT_FAILED returns the translation of the platform error the failing call
set, and every other result code falls through to PROCESS_SUCCESS (line 157). -/
def process_wait (p : process) (ms : Nat) (o : WaitOracle) : WaitResult :=
  let le : Nat := 0
  let le := if o.code = WAIT_FAILED then o.errCode else le
  let r := if o.code = WAIT_TIMEOUT then PROCESS_ERROR.PROCESS_WAIT_TIMEOUT
    else if o.code = WAIT_FAILED then system_error_to_process_error le
    else PROCESS_ERROR.PROCESS_SUCCESS
  WaitResult.mk r [Event.evWait p.info.hProcess ms]

/-- Exit behavior of the child process: `some t` means it exits t milliseconds
after the wait begins (0 means already exited), `none` means it never exits
during the call, for example because it ignores the interrupt signal. -/
structure ChildState where
  exitsAt : Option Nat
deriving DecidableEq

/-- OS semantics of WaitForSingleObject on a process handle: when the call
itself does not fail, a child that exits at time t within the timeout yields
WAIT_OBJECT_0 after blocking t milliseconds, and otherwise the call blocks for
the whole timeout and yields WAIT_TIMEOUT; a failing call yields WAIT_FAILED at
once and sets a platform error. -/
def waitOracleOf (child : ChildState) (ms : Nat) (ofail : Option Nat) : WaitOracle :=
  match ofail with
  | some e => WaitOracle.mk WAIT_FAILED e 0
  | none =>
    match child.exitsAt with
    | some t =>
      if t ≤ ms then WaitOracle.mk WAIT_OBJECT_0 0 t
      else WaitOracle.mk WAIT_TIMEOUT 0 ms
    | none => WaitOracle.mk WAIT_TIMEOUT 0 ms

/-- Windows constant: process creation flag giving the child its own process
group. -/
def CREATE_NEW_PROCESS_GROUP : Nat := 512

/-- Creation flags of line 20: every child is created in a new process group
so that separate CTRL-BREAK signals can target each child alone. -/
def CREATION_FLAGS : Nat := CREATE_NEW_PROCESS_GROUP

/-- Process group identifier of the started child: equal to the process id
because the child is created with CREATE_NEW_PROCESS_GROUP (comment at lines
18-20 and 167-168 of the source). -/
def child_group_id (info : PROCESS_INFORMATION) : Nat := info.dwProcessId

/-- Outcome choices for one process_terminate run: whether the
GenerateConsoleCtrlEvent call fails and with which platform error, and the raw
outcome of the nested WaitForSingleObject call. -/
structure TermOracle where
  ctrlFail : Option Nat
  wait : WaitOracle
deriving DecidableEq

/-- process_terminate (lines 160-174): SetLastError(0), then
GenerateConsoleCtrlEvent(CTRL_BREAK_EVENT, dwProcessId), a group scoped signal
whose target group is the process id of the child itself; if sending fails the
translation of the platform error set by the failing call is returned at once,
without waiting (lines 169-171); otherwise the result of process_wait with the
given timeout is returned (line 173). -/
def process_terminate (p : process) (ms : Nat) (o : TermOracle) : WaitResult :=
  match o.ctrlFail with
  | some e =>
    WaitResult.mk (system_error_to_process_error e)
      [Event.evCtrlBreak p.info.dwProcessId]
  | none =>
    let r := process_wait p ms o.wait
    WaitResult.mk r.err (Event.evCtrlBreak p.info.dwProcessId :: r.trace)

/-- The six endpoint fields of a process record are all nonzero (non NULL) and
pairwise distinct. -/
def distinct_nonnull_endpoints (q : process) : Prop :=
  q.stdin ≠ 0 ∧ q.stdout ≠ 0 ∧ q.stderr ≠ 0 ∧
  q.child_stdin ≠ 0 ∧ q.child_stdout ≠ 0 ∧ q.child_stderr ≠ 0 ∧
  List.Nodup [q.stdin, q.stdout, q.stderr,
    q.child_stdin, q.child_stdout, q.child_stderr]

/-- Claim C1: every call of process_init that returns Success has created all
six pipe endpoints (parent stdin write, parent stdout read, parent stderr
read, child stdin read, child stdout write, child stderr write) and they are
pairwise distinct non null handles. The hypotheses say that handle values
start above NULL and that a failing pipe_init reports a nonzero platform
error, as the Duplex Pipe contract of spec section 4.1 states. -/
theorem process_init_success_six_distinct_endpoints
    (o : InitOracle) (w : World)
    (hw : 1 ≤ w.nextHandle)
    (h1 : o.p1.errCode ≠ 0) (h2 : o.p2.errCode ≠ 0) (h3 : o.p3.errCode ≠ 0)
    (hs : (process_init o w).err = PROCESS_ERROR.PROCESS_SUCCESS) :
    distinct_nonnull_endpoints (process_init o w).p := by
  obtain ⟨⟨ok1, e1⟩, ⟨ok2, e2⟩, ⟨ok3, e3⟩⟩ := o
  simp only [InitOracle.p1, InitOracle.p2, InitOracle.p3] at h1 h2 h3
  cases ok1 <;> cases ok2 <;> cases ok3 <;>
    simp_all [process_init, pipe_init, system_error_to_process_error,
      distinct_nonnull_endpoints, InitResult.err, InitResult.p] <;>
    omega

/-- Witness for claim C1: a concrete process_init run in which all three pipe
creations succeed, starting from handle allocator value 1, returns Success and
yields six distinct non null endpoints. -/
theorem process_init_success_six_distinct_endpoints_witness :
    distinct_nonnull_endpoints
      (process_init
        (InitOracle.mk (PipeOracle.mk true 5) (PipeOracle.mk true 5)
          (PipeOracle.mk true 5)) (World.mk 0 1)).p :=
  process_init_success_six_distinct_endpoints
    (InitOracle.mk (PipeOracle.mk true 5) (PipeOracle.mk true 5)
      (PipeOracle.mk true 5)) (World.mk 0 1)
    (by decide) (by decide) (by decide) (by decide) (by decide)

/-- Claim C2 counterexample: after a successful process_init (handles 1 to 6),
two successive process_free calls with succeeding closes both close the same
parent stdin endpoint: the parent stdin close event appears in the trace of the
first call and again in the trace of the second call, because process_free
never clears the fields it closes. This refutes the claim that calling release
twice never closes the same endpoint twice. -/
theorem process_free_double_close_counterexample :
    (process_init
        (InitOracle.mk (PipeOracle.mk true 7) (PipeOracle.mk true 7)
          (PipeOracle.mk true 7)) (World.mk 0 1)).p.stdin ≠ 0 ∧
    Event.evClose
        (process_init
          (InitOracle.mk (PipeOracle.mk true 7) (PipeOracle.mk true 7)
            (PipeOracle.mk true 7)) (World.mk 0 1)).p.stdin ∈
      (process_free
        (process_init
          (InitOracle.mk (PipeOracle.mk true 7) (PipeOracle.mk true 7)
            (PipeOracle.mk true 7)) (World.mk 0 1)).p
        (FreeOracle.mk none none none none)).trace ∧
    Event.evClose
        (process_init
          (InitOracle.mk (PipeOracle.mk true 7) (PipeOracle.mk true 7)
            (PipeOracle.mk true 7)) (World.mk 0 1)).p.stdin ∈
      (process_free
        (process_free
          (process_init
            (InitOracle.mk (PipeOracle.mk true 7) (PipeOracle.mk true 7)
              (PipeOracle.mk true 7)) (World.mk 0 1)).p
          (FreeOracle.mk none none none none)).p
        (FreeOracle.mk none none none none)).trace := by
  decide

/-- Claim C2 amended: process_free never reports an error merely because
nothing was open (with succeeding closes it returns Success whatever subset of
resources is open, including none), and it works on a handle that only
completed init; but it leaves every handle field unchanged, so a second call
closes the same stdin endpoint again: release is not idempotent with respect
to double closing. -/
theorem process_free_not_idempotent
    (p : process) (o : FreeOracle)
    (h1 : o.c1 = none) (h2 : o.c2 = none) (h3 : o.c3 = none) (h4 : o.c4 = none)
    (hs : p.stdin ≠ 0) :
    (process_free p o).err = PROCESS_ERROR.PROCESS_SUCCESS ∧
    (process_free p o).p = p ∧
    Event.evClose p.stdin ∈ (process_free (process_free p o).p o).trace := by
  obtain ⟨c1, c2, c3, c4⟩ := o
  simp only [FreeOracle.c1, FreeOracle.c2, FreeOracle.c3, FreeOracle.c4]
    at h1 h2 h3 h4
  subst h1 h2 h3 h4
  refine ⟨?_, rfl, ?_⟩
  · simp [process_free, applyLastError, system_error_to_process_error,
      FreeResult.err]
  · simp [process_free, applyLastError, hs, FreeResult.p, FreeResult.trace]

/-- Witness for the amended claim C2: concrete run on the handle produced by a
successful init, with closes that succeed. -/
theorem process_free_not_idempotent_witness :
    (process_free
        (process.mk 2 3 5 1 4 6 (PROCESS_INFORMATION.mk 0 0 0))
        (FreeOracle.mk none none none none)).err =
      PROCESS_ERROR.PROCESS_SUCCESS ∧
    (process_free
        (process.mk 2 3 5 1 4 6 (PROCESS_INFORMATION.mk 0 0 0))
        (FreeOracle.mk none none none none)).p =
      process.mk 2 3 5 1 4 6 (PROCESS_INFORMATION.mk 0 0 0) ∧
    Event.evClose 2 ∈
      (process_free
        (process_free
          (process.mk 2 3 5 1 4 6 (PROCESS_INFORMATION.mk 0 0 0))
          (FreeOracle.mk none none none none)).p
        (FreeOracle.mk none none none none)).trace :=
  process_free_not_idempotent
    (process.mk 2 3 5 1 4 6 (PROCESS_INFORMATION.mk 0 0 0))
    (FreeOracle.mk none none none none) rfl rfl rfl rfl (by decide)

/-- Claim C3, evaluated at the failing input: a handle that completed init
successfully (six open endpoints, handles 1 to 6) and on which start was never
called. process_free leaves the three child side endpoints unclosed even
though they are open and owned: no close event for child_stdin, child_stdout
or child_stderr appears in its trace, contradicting the claim that release
closes every endpoint the handle currently owns. -/
theorem process_free_leaks_child_endpoints :
    (process_init
        (InitOracle.mk (PipeOracle.mk true 9) (PipeOracle.mk true 9)
          (PipeOracle.mk true 9)) (World.mk 0 1)).p.child_stdin ≠ 0 ∧
    (process_init
        (InitOracle.mk (PipeOracle.mk true 9) (PipeOracle.mk true 9)
          (PipeOracle.mk true 9)) (World.mk 0 1)).p.child_stdout ≠ 0 ∧
    (process_init
        (InitOracle.mk (PipeOracle.mk true 9) (PipeOracle.mk true 9)
          (PipeOracle.mk true 9)) (World.mk 0 1)).p.child_stderr ≠ 0 ∧
    Event.evClose
        (process_init
          (InitOracle.mk (PipeOracle.mk true 9) (PipeOracle.mk true 9)
            (PipeOracle.mk true 9)) (World.mk 0 1)).p.child_stdin ∉
      (process_free
        (process_init
          (InitOracle.mk (PipeOracle.mk true 9) (PipeOracle.mk true 9)
            (PipeOracle.mk true 9)) (World.mk 0 1)).p
        (FreeOracle.mk none none none none)).trace ∧
    Event.evClose
        (process_init
          (InitOracle.mk (PipeOracle.mk true 9) (PipeOracle.mk true 9)
            (PipeOracle.mk true 9)) (World.mk 0 1)).p.child_stdout ∉
      (process_free
        (process_init
          (InitOracle.mk (PipeOracle.mk true 9) (PipeOracle.mk true 9)
            (PipeOracle.mk true 9)) (World.mk 0 1)).p
        (FreeOracle.mk none none none none)).trace ∧
    Event.evClose
        (process_init
          (InitOracle.mk (PipeOracle.mk true 9) (PipeOracle.mk true 9)
            (PipeOracle.mk true 9)) (World.mk 0 1)).p.child_stderr ∉
      (process_free
        (process_init
          (InitOracle.mk (PipeOracle.mk true 9) (PipeOracle.mk true 9)
            (PipeOracle.mk true 9)) (World.mk 0 1)).p
        (FreeOracle.mk none none none none)).trace := by
  decide

/-- Claim C4: every run of process_start, whether it returns Success or an
error, closes all three child side endpoints on the parent side: the close
events for child_stdin, child_stdout and child_stderr are always in its trace
(lines 98-100 run unconditionally after CreateProcessW). -/
theorem process_start_closes_child_endpoints (p : process) (o : StartOracle) :
    Event.evClose p.child_stdin ∈ (process_start p o).trace ∧
    Event.evClose p.child_stdout ∈ (process_start p o).trace ∧
    Event.evClose p.child_stderr ∈ (process_start p o).trace := by
  simp [process_start, StartResult.trace]

/-- Claim C5 counterexample: with the debug assertions compiled out, calling
process_start on a handle that was already started (info.hProcess = 7,
info.hThread = 8) with a succeeding process creation returns PROCESS_SUCCESS:
the second start is silently accepted, it is neither an error nor the
distinguished PROCESS_INVALID_HANDLE precondition violation the claim
requires. -/
theorem process_start_second_call_not_rejected_counterexample :
    (process_start (process.mk 1 2 3 4 5 6 (PROCESS_INFORMATION.mk 7 8 9))
        (StartOracle.mk true 0 10 11 12 none none none none none none)).err =
      PROCESS_ERROR.PROCESS_SUCCESS ∧
    isError
        (process_start (process.mk 1 2 3 4 5 6 (PROCESS_INFORMATION.mk 7 8 9))
          (StartOracle.mk true 0 10 11 12 none none none none none none)).err =
      false ∧
    (process_start (process.mk 1 2 3 4 5 6 (PROCESS_INFORMATION.mk 7 8 9))
        (StartOracle.mk true 0 10 11 12 none none none none none none)).err ≠
      PROCESS_ERROR.PROCESS_INVALID_HANDLE := by
  decide

/-- Claim C5 amended: a second start on an already started handle is excluded
only by the debug assertions of lines 66-67: the assertion precondition
process_start_asserts rules such a handle out (so a debug build stops on the
assert), while the function that remains in a non debug build does not reject
it: with a succeeding process creation and succeeding closes it returns
PROCESS_SUCCESS, not an InvalidHandle class error. -/
theorem process_start_second_call_only_assert_guarded
    (p : process) (o : StartOracle)
    (hstarted : p.info.hProcess ≠ 0)
    (hok : o.createOk = true)
    (hf1 : o.free1 = none) (hf2 : o.free2 = none)
    (hc1 : o.close1 = none) (hc2 : o.close2 = none)
    (hc3 : o.close3 = none) (hc4 : o.close4 = none) :
    ¬ process_start_asserts p ∧
    (process_start p o).err = PROCESS_ERROR.PROCESS_SUCCESS ∧
    isError (process_start p o).err = false := by
  refine ⟨fun h => hstarted h.2.2.2.2.2.2.2, ?_, ?_⟩ <;>
    simp [process_start, applyLastError, hok, hf1, hf2, hc1, hc2, hc3, hc4,
      system_error_to_process_error, isError, StartResult.err]

/-- Witness for the amended claim C5: concrete second start on a started
handle, everything on the OS side succeeding. -/
theorem process_start_second_call_only_assert_guarded_witness :
    ¬ process_start_asserts
        (process.mk 1 2 3 4 5 6 (PROCESS_INFORMATION.mk 7 8 9)) ∧
    (process_start (process.mk 1 2 3 4 5 6 (PROCESS_INFORMATION.mk 7 8 9))
        (StartOracle.mk true 3 10 11 12 none none none none none none)).err =
      PROCESS_ERROR.PROCESS_SUCCESS ∧
    isError
        (process_start (process.mk 1 2 3 4 5 6 (PROCESS_INFORMATION.mk 7 8 9))
          (StartOracle.mk true 3 10 11 12 none none none none none none)).err =
      false :=
  process_start_second_call_only_assert_guarded
    (process.mk 1 2 3 4 5 6 (PROCESS_INFORMATION.mk 7 8 9))
    (StartOracle.mk true 3 10 11 12 none none none none none none)
    (by decide) rfl rfl rfl rfl rfl rfl rfl

/-- Claim C6, evaluated at the failing input: CreateProcessW fails setting
platform error 2, and the first of the two free calls that the source places
between CreateProcessW (line 90) and the GetLastError observation (line 96)
overwrites the last error register with 8. process_start then returns the
translation of 8, which is not the translation of the process creation error
2: the intervening C runtime calls break the claimed immediate observation
discipline. -/
theorem process_start_error_clobbered_by_free :
    (process_start (process.mk 1 2 3 4 5 6 (PROCESS_INFORMATION.mk 0 0 0))
        (StartOracle.mk false 2 0 0 0 (some 8) none none none none none)).err =
      PROCESS_ERROR.PROCESS_UNKNOWN 8 ∧
    (process_start (process.mk 1 2 3 4 5 6 (PROCESS_INFORMATION.mk 0 0 0))
        (StartOracle.mk false 2 0 0 0 (some 8) none none none none none)).err ≠
      system_error_to_process_error 2 := by
  decide

/-- Claim C7: for a started handle, process_terminate first sends the
CTRL-BREAK interrupt to the process group of the child itself (equal to the
process id because of CREATE_NEW_PROCESS_GROUP); when the send succeeds it
performs process_wait with the given timeout and returns its outcome, so a
child that never traps or exits on the signal yields the distinguished
PROCESS_WAIT_TIMEOUT outcome, which is not an error; when the send itself
fails, the translation of the platform error set by the failing send is
returned and no wait is performed. -/
theorem process_terminate_signal_then_wait
    (p : process) (ms : Nat) (child : ChildState) (e : Nat) (w : WaitOracle)
    (hpid : p.info.dwProcessId ≠ 0) (he : e ≠ 0) :
    CREATION_FLAGS = CREATE_NEW_PROCESS_GROUP ∧
    (Event.evCtrlBreak (child_group_id p.info) ∈
        (process_terminate p ms (TermOracle.mk none w)).trace ∧
      (process_terminate p ms (TermOracle.mk none w)).err =
        (process_wait p ms w).err ∧
      Event.evWait p.info.hProcess ms ∈
        (process_terminate p ms (TermOracle.mk none w)).trace) ∧
    (child.exitsAt = none →
      (process_terminate p ms
          (TermOracle.mk none (waitOracleOf child ms none))).err =
        PROCESS_ERROR.PROCESS_WAIT_TIMEOUT ∧
      isError (process_terminate p ms
          (TermOracle.mk none (waitOracleOf child ms none))).err = false) ∧
    ((process_terminate p ms (TermOracle.mk (some e) w)).err =
        system_error_to_process_error e ∧
      isError (process_terminate p ms (TermOracle.mk (some e) w)).err = true ∧
      ∀ h m, Event.evWait h m ∉
        (process_terminate p ms (TermOracle.mk (some e) w)).trace) := by
  refine ⟨rfl, ⟨?_, ?_, ?_⟩, ?_, ?_, ?_, ?_⟩
  · simp [process_terminate, child_group_id, WaitResult.trace]
  · simp [process_terminate, WaitResult.err]
  · simp [process_terminate, process_wait, WaitResult.trace]
  · intro hc
    constructor <;>
      simp [process_terminate, process_wait, waitOracleOf, hc,
        WAIT_TIMEOUT, WAIT_FAILED, isError, WaitResult.err]
  · simp [process_terminate, system_error_to_process_error, WaitResult.err]
  · simp [process_terminate, system_error_to_process_error, he, isError,
      WaitResult.err]
  · intro h m
    simp [process_terminate, WaitResult.trace]

/-- Witness for claim C7: started handle with process id 9, timeout 5, a child
that never exits, send failure error 3, and an arbitrary raw wait outcome. -/
theorem process_terminate_signal_then_wait_witness :
    CREATION_FLAGS = CREATE_NEW_PROCESS_GROUP ∧
    (Event.evCtrlBreak
        (child_group_id (PROCESS_INFORMATION.mk 7 0 9)) ∈
        (process_terminate (process.mk 1 2 3 4 5 6 (PROCESS_INFORMATION.mk 7 0 9))
          5 (TermOracle.mk none (WaitOracle.mk 0 0 0))).trace ∧
      (process_terminate (process.mk 1 2 3 4 5 6 (PROCESS_INFORMATION.mk 7 0 9))
          5 (TermOracle.mk none (WaitOracle.mk 0 0 0))).err =
        (process_wait (process.mk 1 2 3 4 5 6 (PROCESS_INFORMATION.mk 7 0 9))
          5 (WaitOracle.mk 0 0 0)).err ∧
      Event.evWait 7 5 ∈
        (process_terminate (process.mk 1 2 3 4 5 6 (PROCESS_INFORMATION.mk 7 0 9))
          5 (TermOracle.mk none (WaitOracle.mk 0 0 0))).trace) ∧
    ((ChildState.mk none).exitsAt = none →
      (process_terminate (process.mk 1 2 3 4 5 6 (PROCESS_INFORMATION.mk 7 0 9))
          5 (TermOracle.mk none (waitOracleOf (ChildState.mk none) 5 none))).err =
        PROCESS_ERROR.PROCESS_WAIT_TIMEOUT ∧
      isError (process_terminate
          (process.mk 1 2 3 4 5 6 (PROCESS_INFORMATION.mk 7 0 9))
          5 (TermOracle.mk none (waitOracleOf (ChildState.mk none) 5 none))).err =
        false) ∧
    ((process_terminate (process.mk 1 2 3 4 5 6 (PROCESS_INFORMATION.mk 7 0 9))
        5 (TermOracle.mk (some 3) (WaitOracle.mk 0 0 0))).err =
      system_error_to_process_error 3 ∧
      isError (process_terminate
          (process.mk 1 2 3 4 5 6 (PROCESS_INFORMATION.mk 7 0 9))
          5 (TermOracle.mk (some 3) (WaitOracle.mk 0 0 0))).err = true ∧
      ∀ h m, Event.evWait h m ∉
        (process_terminate (process.mk 1 2 3 4 5 6 (PROCESS_INFORMATION.mk 7 0 9))
          5 (TermOracle.mk (some 3) (WaitOracle.mk 0 0 0))).trace) :=
  process_terminate_signal_then_wait
    (process.mk 1 2 3 4 5 6 (PROCESS_INFORMATION.mk 7 0 9)) 5
    (ChildState.mk none) 3 (WaitOracle.mk 0 0 0) (by decide) (by decide)

/-- Claim C8: for a started handle whose child has not yet exited at the time
of the call, process_wait with timeout 0 returns the distinguished
PROCESS_WAIT_TIMEOUT outcome, which is not an error, and the underlying wait
blocks for 0 milliseconds. -/
theorem process_wait_zero_timeout_polls
    (p : process) (child : ChildState)
    (hrun : ∀ t, child.exitsAt = some t → 0 < t) :
    (process_wait p 0 (waitOracleOf child 0 none)).err =
      PROCESS_ERROR.PROCESS_WAIT_TIMEOUT ∧
    isError (process_wait p 0 (waitOracleOf child 0 none)).err = false ∧
    (waitOracleOf child 0 none).elapsed = 0 := by
  have hcode : waitOracleOf child 0 none = WaitOracle.mk WAIT_TIMEOUT 0 0 := by
    cases hchild : child.exitsAt with
    | none => simp [waitOracleOf, hchild]
    | some t =>
      have ht : 0 < t := hrun t hchild
      simp [waitOracleOf, hchild, Nat.not_le.mpr ht, Nat.le_zero]
  rw [hcode]
  refine ⟨?_, ?_, rfl⟩ <;>
    simp [process_wait, WAIT_TIMEOUT, WAIT_FAILED, isError, WaitResult.err]

/-- Witness for claim C8: a child that never exits, on a started handle. -/
theorem process_wait_zero_timeout_polls_witness :
    (process_wait (process.mk 1 2 3 4 5 6 (PROCESS_INFORMATION.mk 7 0 9)) 0
        (waitOracleOf (ChildState.mk none) 0 none)).err =
      PROCESS_ERROR.PROCESS_WAIT_TIMEOUT ∧
    isError (process_wait (process.mk 1 2 3 4 5 6 (PROCESS_INFORMATION.mk 7 0 9))
        0 (waitOracleOf (ChildState.mk none) 0 none)).err = false ∧
    (waitOracleOf (ChildState.mk none) 0 none).elapsed = 0 :=
  process_wait_zero_timeout_polls
    (process.mk 1 2 3 4 5 6 (PROCESS_INFORMATION.mk 7 0 9))
    (ChildState.mk none) (fun t ht => Option.noConfusion ht)

/-- Claim C9: in process_start, with the free calls leaving the last error
register alone, a failing process creation dominates: its translated error is
returned unchanged whatever the four close calls do to the register, and only
when process creation succeeded is the returned value the translation of the
register as the close calls left it (the priority merge of lines 104-106). -/
theorem process_start_create_error_priority
    (p : process) (o : StartOracle)
    (hf1 : o.free1 = none) (hf2 : o.free2 = none) :
    (o.createOk = false → o.createErr ≠ 0 →
      (process_start p o).err = system_error_to_process_error o.createErr) ∧
    (o.createOk = true →
      (process_start p o).err =
        system_error_to_process_error
          (applyLastError (applyLastError (applyLastError
            (applyLastError 0 o.close1) o.close2) o.close3) o.close4)) := by
  constructor
  · intro hok herr
    simp [process_start, applyLastError, hok, hf1, hf2,
      system_error_to_process_error, herr, StartResult.err]
  · intro hok
    simp [process_start, applyLastError, hok, hf1, hf2,
      system_error_to_process_error, StartResult.err]

/-- Witness for claim C9: a run in which CreateProcessW fails with platform
error 2 and the close of the child stdout endpoint fails with platform error
9: process_start still returns the translation of 2. -/
theorem process_start_create_error_priority_witness :
    (process_start (process.mk 1 2 3 4 5 6 (PROCESS_INFORMATION.mk 0 0 0))
        (StartOracle.mk false 2 0 0 0 none none none (some 9) none none)).err =
      system_error_to_process_error 2 :=
  (process_start_create_error_priority
    (process.mk 1 2 3 4 5 6 (PROCESS_INFORMATION.mk 0 0 0))
    (StartOracle.mk false 2 0 0 0 none none none (some 9) none none)
    rfl rfl).1 rfl (by decide)

/-- Claim C10: process_wait returns exactly one of PROCESS_SUCCESS,
PROCESS_WAIT_TIMEOUT or the translation of the platform error of a failed
wait; the switch of lines 150-155 sends WAIT_TIMEOUT to the distinguished
timeout outcome, WAIT_FAILED to the translated platform error, and every other
platform result, in particular the abandoned wait result WAIT_ABANDONED, falls
through to PROCESS_SUCCESS. -/
theorem process_wait_total_outcomes (p : process) (ms : Nat) (o : WaitOracle) :
    ((process_wait p ms o).err = PROCESS_ERROR.PROCESS_WAIT_TIMEOUT ∨
      (process_wait p ms o).err = PROCESS_ERROR.PROCESS_SUCCESS ∨
      (process_wait p ms o).err = system_error_to_process_error o.errCode) ∧
    (o.code = WAIT_TIMEOUT →
      (process_wait p ms o).err = PROCESS_ERROR.PROCESS_WAIT_TIMEOUT) ∧
    (o.code = WAIT_FAILED →
      (process_wait p ms o).err = system_error_to_process_error o.errCode) ∧
    (o.code ≠ WAIT_TIMEOUT → o.code ≠ WAIT_FAILED →
      (process_wait p ms o).err = PROCESS_ERROR.PROCESS_SUCCESS) ∧
    (process_wait p ms (WaitOracle.mk WAIT_ABANDONED o.errCode o.elapsed)).err =
      PROCESS_ERROR.PROCESS_SUCCESS := by
  refine ⟨?_, ?_, ?_, ?_, ?_⟩
  · by_cases ht : o.code = WAIT_TIMEOUT
    · exact Or.inl (by simp [process_wait, ht, WaitResult.err])
    · by_cases hf : o.code = WAIT_FAILED
      · exact Or.inr (Or.inr (by
          simp [process_wait, ht, hf, WAIT_TIMEOUT, WAIT_FAILED,
            WaitResult.err]))
      · exact Or.inr (Or.inl (by simp [process_wait, ht, hf, WaitResult.err]))
  · intro ht
    simp [process_wait, ht, WAIT_TIMEOUT, WaitResult.err]
  · intro hf
    simp [process_wait, hf, WAIT_TIMEOUT, WAIT_FAILED, WaitResult.err]
  · intro ht hf
    simp [process_wait, ht, hf, WaitResult.err]
  · simp [process_wait, WAIT_ABANDONED, WAIT_TIMEOUT, WAIT_FAILED,
      WaitResult.err]

/-- Witness for claim C10: the abandoned wait result 128 on a started handle
maps to PROCESS_SUCCESS, not to an error. -/
theorem process_wait_total_outcomes_witness :
    (process_wait (process.mk 1 2 3 4 5 6 (PROCESS_INFORMATION.mk 7 0 9)) 5
        (WaitOracle.mk 128 11 0)).err = PROCESS_ERROR.PROCESS_SUCCESS :=
  (process_wait_total_outcomes
    (process.mk 1 2 3 4 5 6 (PROCESS_INFORMATION.mk 7 0 9)) 5
    (WaitOracle.mk 128 11 0)).2.2.2.1 (by decide) (by decide)
